import Mathlib

/-!
Verification of the OG-USB formatting tool (src/og_usb.py).

The program is a linear orchestration of external commands (lsblk, dd,
parted, mkfs.*, sync, umount).  We embed it shallowly:

* each external invocation (`subprocess.run`) consumes one entry of an
  environment oracle `Env : Nat → ExecResult` (the n-th invocation of a
  run observes `env n`), and appends the argv it issued to a command
  trace;
* Python exceptions are modelled with `Except PyExc`; a `try/except`
  block is translated by matching on the `Except` value;
* stage functions return the list of argvs they issued together with
  their outcome, and the pipeline `format_usb` additionally records
  which stages it invoked and what each reported.

Machine caveats, noted where they matter: Python raises `IndexError` on
`device[-1]` for the empty string (device paths produced by discovery
are always `"/dev/" ++ name`, hence nonempty); Python's `str.isdigit`
and `int` additionally accept non-ASCII Unicode digits, which cannot
occur in the ASCII argv/paths this tool handles, so ASCII digit tests
model them.
-/

/-- Result of attempting one external command: the executable was not
found (Python `FileNotFoundError` from `subprocess.run`), or it ran and
either exited zero (`exitOk = true`) or nonzero, producing `stdout`
(captured only where the source passes `capture_output=True`). -/
inductive ExecResult where
  | notFound : ExecResult
  | ran : Bool → String → ExecResult
deriving DecidableEq

/-- Environment oracle: the outcome of the n-th external invocation of a
run.  Quantifying over `Env` quantifies over all behaviours of the host
system's tools. -/
abbrev Env := Nat → ExecResult

/-- An argv list handed to `subprocess.run`. -/
abbrev Cmd := List String

/-- The Python exceptions the source can raise or catch. -/
inductive PyExc where
  | calledProcessError : PyExc
  | fileNotFound : PyExc
  | valueError : PyExc
deriving DecidableEq

/-- The four destructive stages of the pipeline in `format_usb`. -/
inductive Stage where
  | wipe : Stage
  | partition : Stage
  | format : Stage
  | verify : Stage
deriving DecidableEq

/-- `class USBDevice`: device path, size in bytes, model string. -/
structure USBDevice where
  device : String
  size : Int
  model : String
deriving DecidableEq

/-- `USBDevice.get_size_gb`: `self.size / (1024 ** 3)` (exact rational;
Python float division by this power of two is exact for all sizes below
2^53 and the claims only compare against 4 and 32). -/
def USBDevice.get_size_gb (d : USBDevice) : ℚ :=
  (d.size : ℚ) / (1024 ^ 3)

/-- `OG_USB.recommend_filesystem` (src lines 94-104): size-based
filesystem tag selection. -/
def recommend_filesystem (size_gb : ℚ) : String :=
  if size_gb ≤ 4 then "vfat"
  else if size_gb ≤ 32 then "vfat"
  else "exfat"

/-- `OG_USB.get_filesystem_label` (src lines 106-114). -/
def get_filesystem_label (fs_type : String) : String :=
  if fs_type = "vfat" then "FAT32"
  else if fs_type = "exfat" then "exFAT"
  else if fs_type = "ntfs" then "NTFS"
  else if fs_type = "ext4" then "ext4"
  else fs_type.toUpper

/-- Partition-path derivation in `OG_USB.format_partition` (src lines
198-202): append `"p1"` when the device path's last character is a
digit, else append `"1"`.  (Python raises `IndexError` on the empty
string; discovered device paths are never empty.) -/
def formatPartitionName (device : String) : String :=
  if device.back.isDigit then device ++ "p1" else device ++ "1"

/-- Partition-path derivation in `OG_USB.verify_device` (src lines
251-255), textually repeated there; kept as its own definition so the
two can be compared. -/
def verifyPartitionName (device : String) : String :=
  if device.back.isDigit then device ++ "p1" else device ++ "1"

/-! Argv lists issued by the tool, verbatim from the source. -/

/-- The `lsblk` argv of `detect_usb_devices` (src line 52). -/
def lsblkDetectCmd : Cmd :=
  ["lsblk", "-b", "-d", "-o", "NAME,SIZE,TRAN,MODEL", "-n"]

/-- The `lsblk` argv of `unmount_device` (src line 147). -/
def lsblkNameCmd (device : String) : Cmd :=
  ["lsblk", "-ln", "-o", "NAME", device]

/-- The `umount` argv of `unmount_device` (src line 156). -/
def umountCmd (partition : String) : Cmd :=
  ["umount", partition]

/-- The `dd` argv of `wipe_device` (src line 128). -/
def ddCmd (device : String) : Cmd :=
  ["dd", "if=/dev/zero", "of=" ++ device, "bs=1M", "count=100", "status=progress"]

/-- The `sync` argv (src lines 133, 182, 234). -/
def syncCmd : Cmd :=
  ["sync"]

/-- The first `parted` argv of `create_partition` (src line 171). -/
def partedLabelCmd (device : String) : Cmd :=
  ["parted", "-s", device, "mklabel", "gpt"]

/-- The second `parted` argv of `create_partition` (src line 177). -/
def partedMkpartCmd (device : String) : Cmd :=
  ["parted", "-s", device, "mkpart", "primary", "0%", "100%"]

/-- The `mkfs.*` argv of `format_partition` for a supported tag (src
lines 205-228); `none` for an unsupported tag. -/
def mkfsCmd (fs_type label partition : String) : Option Cmd :=
  if fs_type = "vfat" then some ["mkfs.vfat", "-F", "32", "-n", label, partition]
  else if fs_type = "exfat" then some ["mkfs.exfat", "-n", label, partition]
  else if fs_type = "ntfs" then some ["mkfs.ntfs", "-f", "-L", label, partition]
  else if fs_type = "ext4" then some ["mkfs.ext4", "-F", "-L", label, partition]
  else none

/-- The `lsblk -f` argv of `verify_device` (src line 259). -/
def lsblkFsCmd (partition : String) : Cmd :=
  ["lsblk", "-f", partition]

/-! Python string helpers, embedded structurally over `String.data` so
that the kernel can evaluate them on concrete inputs.  Caveat: Python's
whitespace set additionally contains `\f`, `\v` and Unicode spaces,
which do not occur in the tool's inputs; `Char.isWhitespace` models
it. -/

/-- Accumulating splitter over a character list: cut at every character
satisfying `p` (Python `str.split(sep)` semantics, empty pieces kept). -/
def splitCharsBy (p : Char → Bool) : List Char → List Char → List String
  | [], acc => [String.mk acc.reverse]
  | c :: cs, acc =>
      if p c then String.mk acc.reverse :: splitCharsBy p cs []
      else splitCharsBy p cs (c :: acc)

/-- Python `s.split(sep)` for a one-character separator test. -/
def pySplit (p : Char → Bool) (s : String) : List String :=
  splitCharsBy p s.data []

/-- Python `s.strip()`: drop leading and trailing whitespace. -/
def pyStrip (s : String) : String :=
  String.mk (((s.data.dropWhile Char.isWhitespace).reverse.dropWhile
    Char.isWhitespace).reverse)

/-- Python `s.split()` with no argument: split on whitespace runs,
dropping empty pieces. -/
def pySplitWs (s : String) : List String :=
  (pySplit Char.isWhitespace s).filter fun t => t ≠ ""

/-- The lines Python iterates over for a captured stdout `out`:
`out.strip().split('\n')` (src lines 58, 152). -/
def pyLines (out : String) : List String :=
  pySplit (fun c => c = '\n') (pyStrip out)

/-! The stages.  Each takes the environment and the index of its first
external invocation, and returns the argvs it issued (one per consumed
environment entry, in order) together with its outcome. -/

/-- The `umount` argvs the loop of `unmount_device` (src lines 152-160)
issues for a listing output `out`: one per line of `out.strip()` split
on newlines, for the derived path `"/dev/" ++ line.strip()`, skipped
when that path equals the device path itself.  Each `umount` runs with
`check=False` inside its own `try/except`, so its outcome is ignored. -/
def umountLoopCmds (device : String) (out : String) : List Cmd :=
  (pyLines out).filterMap fun line =>
    if "/dev/" ++ pyStrip line ≠ device then
      some (umountCmd ("/dev/" ++ pyStrip line))
    else none

/-- Body of the outer `try` of `OG_USB.unmount_device` (src lines
144-160): run `lsblk -ln -o NAME device` (no `check`, output captured;
a missing `lsblk` raises `FileNotFoundError`), then issue the `umount`
loop over its stdout (available even on nonzero exit). -/
def unmount_body (env : Env) (n : Nat) (device : String) :
    List Cmd × Except PyExc Unit :=
  match env n with
  | ExecResult.notFound => ([lsblkNameCmd device], Except.error PyExc.fileNotFound)
  | ExecResult.ran _ out =>
      (lsblkNameCmd device :: umountLoopCmds device out, Except.ok ())

/-- `OG_USB.unmount_device` (src lines 142-162): the body wrapped in
`try/except Exception: pass`, so every exception is swallowed and the
caller always gets a normal return with the trace the body produced. -/
def unmount_device (env : Env) (n : Nat) (device : String) :
    List Cmd × Except PyExc Unit :=
  ((unmount_body env n device).1, Except.ok ())

/-- `OG_USB.wipe_device` (src lines 116-140): unmount (always returns),
then `dd` and `sync`, both `check=True`; `CalledProcessError` is caught
and reported as `False`, while `FileNotFoundError` (a missing `dd` or
`sync`) is not caught and propagates. -/
def wipe_device (env : Env) (n : Nat) (device : String) :
    List Cmd × Except PyExc Bool :=
  let u := (unmount_device env n device).1
  match env (n + u.length) with
  | ExecResult.notFound => (u ++ [ddCmd device], Except.error PyExc.fileNotFound)
  | ExecResult.ran false _ => (u ++ [ddCmd device], Except.ok false)
  | ExecResult.ran true _ =>
      match env (n + u.length + 1) with
      | ExecResult.notFound =>
          (u ++ [ddCmd device, syncCmd], Except.error PyExc.fileNotFound)
      | ExecResult.ran false _ => (u ++ [ddCmd device, syncCmd], Except.ok false)
      | ExecResult.ran true _ => (u ++ [ddCmd device, syncCmd], Except.ok true)

/-- `OG_USB.create_partition` (src lines 164-192): `parted mklabel gpt`,
`parted mkpart primary 0% 100%`, `sync`, all `check=True`;
`CalledProcessError` caught and reported as `False`,
`FileNotFoundError` uncaught.  The `time.sleep(2)` issues no command. -/
def create_partition (env : Env) (n : Nat) (device : String) :
    List Cmd × Except PyExc Bool :=
  match env n with
  | ExecResult.notFound => ([partedLabelCmd device], Except.error PyExc.fileNotFound)
  | ExecResult.ran false _ => ([partedLabelCmd device], Except.ok false)
  | ExecResult.ran true _ =>
      match env (n + 1) with
      | ExecResult.notFound =>
          ([partedLabelCmd device, partedMkpartCmd device],
            Except.error PyExc.fileNotFound)
      | ExecResult.ran false _ =>
          ([partedLabelCmd device, partedMkpartCmd device], Except.ok false)
      | ExecResult.ran true _ =>
          match env (n + 2) with
          | ExecResult.notFound =>
              ([partedLabelCmd device, partedMkpartCmd device, syncCmd],
                Except.error PyExc.fileNotFound)
          | ExecResult.ran false _ =>
              ([partedLabelCmd device, partedMkpartCmd device, syncCmd],
                Except.ok false)
          | ExecResult.ran true _ =>
              ([partedLabelCmd device, partedMkpartCmd device, syncCmd],
                Except.ok true)

/-- `OG_USB.format_partition` (src lines 194-244): derive the partition
path, then dispatch on the filesystem tag.  An unsupported tag returns
`False` before any command; otherwise run the `mkfs.*` utility and
`sync`, both `check=True`, with both `CalledProcessError` and
`FileNotFoundError` caught and reported as `False`. -/
def format_partition (env : Env) (n : Nat) (device fs_type label : String) :
    List Cmd × Except PyExc Bool :=
  match mkfsCmd fs_type label (formatPartitionName device) with
  | none => ([], Except.ok false)
  | some mk =>
      match env n with
      | ExecResult.notFound => ([mk], Except.ok false)
      | ExecResult.ran false _ => ([mk], Except.ok false)
      | ExecResult.ran true _ =>
          match env (n + 1) with
          | ExecResult.notFound => ([mk, syncCmd], Except.ok false)
          | ExecResult.ran false _ => ([mk, syncCmd], Except.ok false)
          | ExecResult.ran true _ => ([mk, syncCmd], Except.ok true)

/-- `OG_USB.verify_device` (src lines 246-276): derive the partition
path, run `lsblk -f partition` with `check=True` and output captured;
`CalledProcessError` caught and reported as `False`,
`FileNotFoundError` uncaught; on success report whether stdout is
nonempty (Python string truthiness). -/
def verify_device (env : Env) (n : Nat) (device : String) :
    List Cmd × Except PyExc Bool :=
  let partition := verifyPartitionName device
  match env n with
  | ExecResult.notFound => ([lsblkFsCmd partition], Except.error PyExc.fileNotFound)
  | ExecResult.ran false _ => ([lsblkFsCmd partition], Except.ok false)
  | ExecResult.ran true out =>
      ([lsblkFsCmd partition], Except.ok (decide (out ≠ "")))

deriving instance DecidableEq for Except

/-- One run of `OG_USB.format_usb`: the stages invoked together with
what each reported, the argvs issued, and the overall outcome. -/
structure RunResult where
  stages : List (Stage × Except PyExc Bool)
  cmds : List Cmd
  result : Except PyExc Bool
deriving DecidableEq

/-- The filesystem tag `format_usb` actually uses (src lines 283-285):
Python `if not fs_type` replaces both `None` and the empty string with
the recommendation. -/
def effective_fs (fs_type : Option String) (device : USBDevice) : String :=
  match fs_type with
  | none => recommend_filesystem device.get_size_gb
  | some s => if s = "" then recommend_filesystem device.get_size_gb else s

/-- `OG_USB.format_usb` (src lines 278-320): resolve the filesystem
tag, gate on the confirmation response being exactly `"YES"`, then run
wipe, partition, format, verify in order, stopping at the first stage
that reports `False` or raises. -/
def format_usb (env : Env) (n : Nat) (device : USBDevice)
    (fs_type : Option String) (label response : String) : RunResult :=
  if response ≠ "YES" then ⟨[], [], Except.ok false⟩
  else
    match wipe_device env n device.device with
    | (c1, Except.error e) => ⟨[(Stage.wipe, Except.error e)], c1, Except.error e⟩
    | (c1, Except.ok false) => ⟨[(Stage.wipe, Except.ok false)], c1, Except.ok false⟩
    | (c1, Except.ok true) =>
      match create_partition env (n + c1.length) device.device with
      | (c2, Except.error e) =>
          ⟨[(Stage.wipe, Except.ok true), (Stage.partition, Except.error e)],
            c1 ++ c2, Except.error e⟩
      | (c2, Except.ok false) =>
          ⟨[(Stage.wipe, Except.ok true), (Stage.partition, Except.ok false)],
            c1 ++ c2, Except.ok false⟩
      | (c2, Except.ok true) =>
        match format_partition env (n + c1.length + c2.length) device.device
            (effective_fs fs_type device) label with
        | (c3, Except.error e) =>
            ⟨[(Stage.wipe, Except.ok true), (Stage.partition, Except.ok true),
              (Stage.format, Except.error e)], c1 ++ c2 ++ c3, Except.error e⟩
        | (c3, Except.ok false) =>
            ⟨[(Stage.wipe, Except.ok true), (Stage.partition, Except.ok true),
              (Stage.format, Except.ok false)], c1 ++ c2 ++ c3, Except.ok false⟩
        | (c3, Except.ok true) =>
          match verify_device env (n + c1.length + c2.length + c3.length) device.device with
          | (c4, Except.error e) =>
              ⟨[(Stage.wipe, Except.ok true), (Stage.partition, Except.ok true),
                (Stage.format, Except.ok true), (Stage.verify, Except.error e)],
                c1 ++ c2 ++ c3 ++ c4, Except.error e⟩
          | (c4, Except.ok false) =>
              ⟨[(Stage.wipe, Except.ok true), (Stage.partition, Except.ok true),
                (Stage.format, Except.ok true), (Stage.verify, Except.ok false)],
                c1 ++ c2 ++ c3 ++ c4, Except.ok false⟩
          | (c4, Except.ok true) =>
              ⟨[(Stage.wipe, Except.ok true), (Stage.partition, Except.ok true),
                (Stage.format, Except.ok true), (Stage.verify, Except.ok true)],
                c1 ++ c2 ++ c3 ++ c4, Except.ok true⟩

/-- Value of a most-significant-first digit string. -/
def digitsToNat : List Char → Nat → Nat
  | [], acc => acc
  | c :: cs, acc => digitsToNat cs (acc * 10 + (c.toNat - ('0').toNat))

/-- Python `int(s)` as used on the SIZE column (src line 65): optional
surrounding whitespace, optional sign, then decimal digits; `none`
models the `ValueError` raise.  (Python additionally accepts
underscores between digits and non-ASCII Unicode digits, which cannot
occur in an argv or a device listing handled here.) -/
def pyInt? (s : String) : Option Int :=
  match (pyStrip s).data with
  | '-' :: ds =>
      if ds ≠ [] ∧ ds.all Char.isDigit then some (-(digitsToNat ds 0 : Int))
      else none
  | '+' :: ds =>
      if ds ≠ [] ∧ ds.all Char.isDigit then some ((digitsToNat ds 0 : Int))
      else none
  | ds =>
      if ds ≠ [] ∧ ds.all Char.isDigit then some ((digitsToNat ds 0 : Int))
      else none

/-- One iteration of the parsing loop of `detect_usb_devices` (src
lines 58-72): skip blank lines and lines with fewer than three
whitespace-separated fields; otherwise read NAME, SIZE (`int(...)`,
whose failure raises `ValueError`), TRAN and MODEL (`"Unknown"` when
absent), and keep the device exactly when the transport field is
`"usb"`, with path `"/dev/" ++ name`. -/
def parseDeviceLine (line : String) : Except PyExc (List USBDevice) :=
  if pyStrip line = "" then Except.ok []
  else if (pySplitWs line).length ≥ 3 then
    match pyInt? ((pySplitWs line).getD 1 "") with
    | none => Except.error PyExc.valueError
    | some size =>
        if (pySplitWs line).getD 2 "" = "usb" then
          Except.ok [⟨"/dev/" ++ (pySplitWs line).headD "", size,
            if (pySplitWs line).length > 3 then
              " ".intercalate ((pySplitWs line).drop 3)
            else "Unknown"⟩]
        else Except.ok []
  else Except.ok []

/-- The whole parsing loop: first raised `ValueError` propagates,
otherwise the per-line devices are collected in order. -/
def parseDeviceLines : List String → Except PyExc (List USBDevice)
  | [] => Except.ok []
  | l :: ls =>
      match parseDeviceLine l with
      | Except.error e => Except.error e
      | Except.ok ds =>
          match parseDeviceLines ls with
          | Except.error e => Except.error e
          | Except.ok rest => Except.ok (ds ++ rest)

/-- `OG_USB.detect_usb_devices` (src lines 45-80): run the inventory
`lsblk` (src line 52, `check=True`); `CalledProcessError` and
`FileNotFoundError` are caught, a diagnostic is printed, and the empty
device list results; a successful listing is parsed line by line, any
`ValueError` from `int(...)` propagating uncaught. -/
def detect_usb_devices (env : Env) (n : Nat) : Except PyExc (List USBDevice) :=
  match env n with
  | ExecResult.notFound => Except.ok []
  | ExecResult.ran false _ => Except.ok []
  | ExecResult.ran true out => parseDeviceLines (pyLines out)

/-- Effect of one `detect_usb_devices` call on the stored
`self.devices` list: it is assigned the freshly built list (src line
79) only when the call returns normally; an uncaught exception leaves
the previously stored list in place. -/
def detect_update (env : Env) (n : Nat) (stored : List USBDevice) :
    List USBDevice :=
  match detect_usb_devices env n with
  | Except.ok devs => devs
  | Except.error _ => stored

/-- C1: `recommend_filesystem` returns the FAT32 tag `"vfat"` for every
capacity ≤ 32 GB (both lower branches inclusive) and the exFAT tag
`"exfat"` for every capacity > 32 GB; in particular at 4.0, 32.0 and
32.01 GB. -/
theorem recommend_boundaries :
    (∀ c : ℚ, c ≤ 32 → recommend_filesystem c = "vfat") ∧
    (∀ c : ℚ, 32 < c → recommend_filesystem c = "exfat") ∧
    recommend_filesystem 4 = "vfat" ∧
    recommend_filesystem 32 = "vfat" ∧
    recommend_filesystem (3201 / 100) = "exfat" := by
  refine ⟨fun c hc => ?_, fun c hc => ?_, by norm_num [recommend_filesystem],
    by norm_num [recommend_filesystem], by norm_num [recommend_filesystem]⟩
  · unfold recommend_filesystem
    split_ifs <;> first | rfl | linarith
  · unfold recommend_filesystem
    split_ifs <;> first | rfl | linarith

/-- Witness for C1 at the concrete capacity 10 GB. -/
theorem recommend_boundaries_witness :
    (10 : ℚ) ≤ 32 ∧ recommend_filesystem 10 = "vfat" :=
  ⟨by norm_num, recommend_boundaries.1 10 (by norm_num)⟩

/-- C4: for every nonempty device path, the partition path used by the
Format stage appends `"1"` when the last character is not a digit and
`"p1"` when it is; concretely, `"/dev/sdb"` maps to `"/dev/sdb1"` and
`"/dev/nvme0n1"` maps to `"/dev/nvme0n1p1"`. -/
theorem partition_name_derivation (device : String) (h : device ≠ "") :
    (device.back.isDigit = false → formatPartitionName device = device ++ "1") ∧
    (device.back.isDigit = true → formatPartitionName device = device ++ "p1") ∧
    formatPartitionName "/dev/sdb" = "/dev/sdb1" ∧
    formatPartitionName "/dev/nvme0n1" = "/dev/nvme0n1p1" := by
  refine ⟨fun hd => ?_, fun hd => ?_, by decide, by decide⟩
  · simp [formatPartitionName, hd]
  · simp [formatPartitionName, hd]

/-- Witness for C4 at the concrete device path `"/dev/sdb"`. -/
theorem partition_name_derivation_witness :
    "/dev/sdb" ≠ "" ∧ formatPartitionName "/dev/sdb" = "/dev/sdb1" :=
  ⟨by decide, (partition_name_derivation "/dev/sdb" (by decide)).2.2.1⟩

/-- C8: the Format stage and the Verify stage derive the same partition
path from every device path, so both stages address the same
partition. -/
theorem partition_name_agree :
    ∀ device : String, formatPartitionName device = verifyPartitionName device :=
  fun _ => rfl

/-- C6: `verify_device` succeeds only when the metadata query ran
successfully with nonempty output, and an empty metadata listing is
reported as verification failure. -/
theorem verify_requires_metadata (env : Env) (n : Nat) (device : String) :
    ((verify_device env n device).2 = Except.ok true →
      ∃ out : String, env n = ExecResult.ran true out ∧ out ≠ "") ∧
    (env n = ExecResult.ran true "" →
      (verify_device env n device).2 = Except.ok false) := by
  constructor
  · intro hok
    unfold verify_device at hok
    obtain ⟨r, hr⟩ : ∃ r, env n = r := ⟨env n, rfl⟩
    rw [hr] at hok
    cases r with
    | notFound => simp at hok
    | ran b out =>
        cases b with
        | false => simp at hok
        | true =>
            simp at hok
            exact ⟨out, hr, hok⟩
  · intro henv
    unfold verify_device
    rw [henv]
    simp

/-- Witness for C6: an empty listing at invocation 0 makes verification
fail. -/
theorem verify_requires_metadata_witness :
    (fun _ => ExecResult.ran true "" : Env) 0 = ExecResult.ran true "" ∧
    (verify_device (fun _ => ExecResult.ran true "") 0 "/dev/sdb").2 =
      Except.ok false :=
  ⟨rfl, (verify_requires_metadata (fun _ => ExecResult.ran true "") 0 "/dev/sdb").2 rfl⟩

/-- C9: `unmount_device` is total and self-excluding: for every
environment and device path it returns normally (the outer handler
swallows every exception), and every `umount` argv in its trace targets
a derived path different from the device path itself. -/
theorem unmount_total_self_excluding (env : Env) (n : Nat) (device : String) :
    (unmount_device env n device).2 = Except.ok () ∧
    (∀ c ∈ (unmount_device env n device).1,
      ∀ p : String, c = umountCmd p → p ≠ device) := by
  refine ⟨rfl, ?_⟩
  obtain ⟨r, hr⟩ : ∃ r, env n = r := ⟨env n, rfl⟩
  cases r with
  | notFound =>
      intro c hc p hcp
      have hcl : (unmount_device env n device).1 = [lsblkNameCmd device] := by
        unfold unmount_device unmount_body
        rw [hr]
      rw [hcl] at hc
      have hc1 : c = lsblkNameCmd device := by simpa using hc
      rw [hcp] at hc1
      simp [lsblkNameCmd, umountCmd] at hc1
  | ran b out =>
      intro c hc p hcp
      have hcl : (unmount_device env n device).1 =
          lsblkNameCmd device :: umountLoopCmds device out := by
        unfold unmount_device unmount_body
        rw [hr]
      rw [hcl] at hc
      rcases List.mem_cons.mp hc with h1 | h2
      · rw [hcp] at h1
        simp [lsblkNameCmd, umountCmd] at h1
      · rcases List.mem_filterMap.mp h2 with ⟨line, _, hline⟩
        by_cases hne : "/dev/" ++ pyStrip line ≠ device
        · rw [if_pos hne] at hline
          have hcq : umountCmd ("/dev/" ++ pyStrip line) = c := Option.some.inj hline
          rw [hcp] at hcq
          have hpq : "/dev/" ++ pyStrip line = p := by
            simpa [umountCmd] using hcq
          rw [← hpq]
          exact hne
        · rw [if_neg hne] at hline
          simp at hline

/-- Witness for C9: with a listing containing the device and one
partition, the derived path of the single `umount` issued differs from
the device path. -/
theorem unmount_total_self_excluding_witness :
    umountCmd "/dev/sdb1" ∈
      (unmount_device (fun _ => ExecResult.ran true "sdb\nsdb1") 0 "/dev/sdb").1 ∧
    "/dev/sdb1" ≠ "/dev/sdb" :=
  ⟨by decide,
    (unmount_total_self_excluding (fun _ => ExecResult.ran true "sdb\nsdb1") 0
      "/dev/sdb").2 (umountCmd "/dev/sdb1") (by decide) "/dev/sdb1" rfl⟩

/-- C2: in every run of the pipeline, the Format stage is invoked only
if the Partition stage reported success and the Verify stage only if
the Format stage reported success, and a stage that does not report
success (it reported `False` or raised) halts progression to every
subsequent stage. -/
theorem pipeline_stage_order (env : Env) (n : Nat) (device : USBDevice)
    (fs_type : Option String) (label response : String) (run : RunResult)
    (hrun : run = format_usb env n device fs_type label response) :
    ((∃ r, (Stage.format, r) ∈ run.stages) →
      (Stage.partition, Except.ok true) ∈ run.stages) ∧
    ((∃ r, (Stage.verify, r) ∈ run.stages) →
      (Stage.format, Except.ok true) ∈ run.stages) ∧
    (∀ r r2, (Stage.wipe, r) ∈ run.stages → r ≠ Except.ok true →
      (Stage.partition, r2) ∉ run.stages ∧ (Stage.format, r2) ∉ run.stages ∧
        (Stage.verify, r2) ∉ run.stages) ∧
    (∀ r r2, (Stage.partition, r) ∈ run.stages → r ≠ Except.ok true →
      (Stage.format, r2) ∉ run.stages ∧ (Stage.verify, r2) ∉ run.stages) ∧
    (∀ r r2, (Stage.format, r) ∈ run.stages → r ≠ Except.ok true →
      (Stage.verify, r2) ∉ run.stages) := by
  subst hrun
  unfold format_usb
  by_cases hresp : response ≠ "YES"
  · rw [if_pos hresp]
    simp
  · rw [if_neg hresp]
    obtain ⟨⟨c1, r1⟩, h1⟩ : ∃ w, wipe_device env n device.device = w := ⟨_, rfl⟩
    rw [h1]
    cases r1 with
    | error e => simp <;> tauto
    | ok b =>
      cases b with
      | false => simp <;> tauto
      | true =>
        obtain ⟨⟨c2, r2⟩, h2⟩ :
            ∃ w, create_partition env (n + c1.length) device.device = w := ⟨_, rfl⟩
        simp only [h2]
        cases r2 with
        | error e => simp <;> tauto
        | ok b2 =>
          cases b2 with
          | false => simp <;> tauto
          | true =>
            obtain ⟨⟨c3, r3⟩, h3⟩ :
                ∃ w, format_partition env (n + c1.length + c2.length) device.device
                  (effective_fs fs_type device) label = w := ⟨_, rfl⟩
            simp only [h3]
            cases r3 with
            | error e => simp <;> tauto
            | ok b3 =>
              cases b3 with
              | false => simp <;> tauto
              | true =>
                obtain ⟨⟨c4, r4⟩, h4⟩ :
                    ∃ w, verify_device env (n + c1.length + c2.length + c3.length)
                      device.device = w := ⟨_, rfl⟩
                simp only [h4]
                cases r4 with
                | error e => simp <;> tauto
                | ok b4 => cases b4 <;> simp <;> tauto

/-- Witness for C2: a run in which every external command succeeds
invokes Format, and Partition indeed reported success. -/
theorem pipeline_stage_order_witness :
    (∃ r, (Stage.format, r) ∈
      (format_usb (fun _ => ExecResult.ran true "x") 0
        ⟨"/dev/sdb", 8589934592, "K"⟩ (some "vfat") "OG_USB" "YES").stages) ∧
    (Stage.partition, Except.ok true) ∈
      (format_usb (fun _ => ExecResult.ran true "x") 0
        ⟨"/dev/sdb", 8589934592, "K"⟩ (some "vfat") "OG_USB" "YES").stages :=
  ⟨⟨Except.ok true, by decide⟩,
    (pipeline_stage_order (fun _ => ExecResult.ran true "x") 0
      ⟨"/dev/sdb", 8589934592, "K"⟩ (some "vfat") "OG_USB" "YES" _ rfl).1
      ⟨Except.ok true, by decide⟩⟩

/-- C3: any confirmation response other than the exact literal `"YES"`
cancels the pipeline: `format_usb` reports failure, invokes no stage,
and issues zero external commands.  (The method reads and writes no
instance state at all, so cancellation also modifies no state.) -/
theorem confirmation_gate (env : Env) (n : Nat) (device : USBDevice)
    (fs_type : Option String) (label response : String) (h : response ≠ "YES") :
    format_usb env n device fs_type label response = ⟨[], [], Except.ok false⟩ := by
  unfold format_usb
  rw [if_pos h]

/-- Witness for C3: the lowercase response `"yes"` cancels the run. -/
theorem confirmation_gate_witness :
    ("yes" ≠ "YES") ∧
    format_usb (fun _ => ExecResult.ran true "x") 0
      ⟨"/dev/sdb", 8589934592, "K"⟩ none "OG_USB" "yes" =
        ⟨[], [], Except.ok false⟩ :=
  ⟨by decide,
    confirmation_gate (fun _ => ExecResult.ran true "x") 0
      ⟨"/dev/sdb", 8589934592, "K"⟩ none "OG_USB" "yes" (by decide)⟩

/-- C5: a filesystem tag outside {vfat, exfat, ntfs, ext4} makes the
Format stage report failure while issuing no command, and the pipeline
then never invokes the Verify stage and never reports success. -/
theorem unsupported_fs_rejected (env : Env) (n : Nat) (device : USBDevice)
    (fs_type : Option String) (label response : String)
    (hfs : effective_fs fs_type device ∉
      (["vfat", "exfat", "ntfs", "ext4"] : List String)) :
    format_partition env n device.device (effective_fs fs_type device) label
        = ([], Except.ok false) ∧
    (∀ r, (Stage.verify, r) ∉
      (format_usb env n device fs_type label response).stages) ∧
    (format_usb env n device fs_type label response).result ≠ Except.ok true := by
  simp only [List.mem_cons, List.not_mem_nil, or_false, not_or] at hfs
  have hmk : mkfsCmd (effective_fs fs_type device) label
      (formatPartitionName device.device) = none := by
    unfold mkfsCmd
    rw [if_neg hfs.1, if_neg hfs.2.1, if_neg hfs.2.2.1, if_neg hfs.2.2.2]
  have hfp : ∀ m : Nat,
      format_partition env m device.device (effective_fs fs_type device) label
        = ([], Except.ok false) := by
    intro m
    unfold format_partition
    rw [hmk]
  have hpipe : (∀ r, (Stage.verify, r) ∉
      (format_usb env n device fs_type label response).stages) ∧
      (format_usb env n device fs_type label response).result ≠ Except.ok true := by
    unfold format_usb
    by_cases hresp : response ≠ "YES"
    · rw [if_pos hresp]
      simp
    · rw [if_neg hresp]
      obtain ⟨⟨c1, r1⟩, h1⟩ : ∃ w, wipe_device env n device.device = w := ⟨_, rfl⟩
      rw [h1]
      cases r1 with
      | error e => simp <;> tauto
      | ok b =>
        cases b with
        | false => simp <;> tauto
        | true =>
          obtain ⟨⟨c2, r2⟩, h2⟩ :
              ∃ w, create_partition env (n + c1.length) device.device = w := ⟨_, rfl⟩
          simp only [h2]
          cases r2 with
          | error e => simp <;> tauto
          | ok b2 =>
            cases b2 with
            | false => simp <;> tauto
            | true =>
              simp only [hfp]
              simp <;> tauto
  exact ⟨hfp n, hpipe.1, hpipe.2⟩

/-- Witness for C5: the tag `"btrfs"` is outside the supported set and
the Format stage reports failure with an empty command trace. -/
theorem unsupported_fs_rejected_witness :
    effective_fs (some "btrfs") ⟨"/dev/sdb", 8589934592, "K"⟩ ∉
      (["vfat", "exfat", "ntfs", "ext4"] : List String) ∧
    format_partition (fun _ => ExecResult.ran true "x") 0 "/dev/sdb"
      (effective_fs (some "btrfs") ⟨"/dev/sdb", 8589934592, "K"⟩) "OG_USB"
        = ([], Except.ok false) :=
  ⟨by decide,
    (unsupported_fs_rejected (fun _ => ExecResult.ran true "x") 0
      ⟨"/dev/sdb", 8589934592, "K"⟩ (some "btrfs") "OG_USB" "YES" (by decide)).1⟩

/-- Every device a successfully parsed line yields comes from a line
whose transport field is `"usb"`, and its path is `"/dev/"` plus the
line's name field. -/
theorem parseDeviceLine_usb (line : String) (ds : List USBDevice)
    (d : USBDevice) (h : parseDeviceLine line = Except.ok ds) (hd : d ∈ ds) :
    (pySplitWs line).getD 2 "" = "usb" ∧
      d.device = "/dev/" ++ (pySplitWs line).headD "" := by
  unfold parseDeviceLine at h
  by_cases hblank : pyStrip line = ""
  · rw [if_pos hblank] at h
    injection h with h'
    subst h'
    simp at hd
  · rw [if_neg hblank] at h
    by_cases hlen : (pySplitWs line).length ≥ 3
    · rw [if_pos hlen] at h
      obtain ⟨r, hr⟩ : ∃ r, pyInt? ((pySplitWs line).getD 1 "") = r := ⟨_, rfl⟩
      simp only [hr] at h
      cases r with
      | none => cases h
      | some size =>
          by_cases htran : (pySplitWs line).getD 2 "" = "usb"
          · simp only [htran, if_true] at h
            injection h with h'
            subst h'
            have hd1 := List.mem_singleton.mp hd
            subst hd1
            exact ⟨htran, rfl⟩
          · simp only [htran, if_false] at h
            injection h with h'
            subst h'
            simp at hd
    · rw [if_neg hlen] at h
      injection h with h'
      subst h'
      simp at hd

/-- Every device the parsing loop returns comes from some input line
that parsed successfully and yielded it. -/
theorem parseDeviceLines_mem (ls : List String) (devs : List USBDevice)
    (d : USBDevice) (h : parseDeviceLines ls = Except.ok devs)
    (hd : d ∈ devs) :
    ∃ line, line ∈ ls ∧ ∃ ds, parseDeviceLine line = Except.ok ds ∧ d ∈ ds := by
  induction ls generalizing devs with
  | nil =>
      unfold parseDeviceLines at h
      injection h with h'
      subst h'
      simp at hd
  | cons l ls ih =>
      unfold parseDeviceLines at h
      obtain ⟨r1, hr1⟩ : ∃ r, parseDeviceLine l = r := ⟨_, rfl⟩
      rw [hr1] at h
      cases r1 with
      | error e => cases h
      | ok ds1 =>
          obtain ⟨r2, hr2⟩ : ∃ r, parseDeviceLines ls = r := ⟨_, rfl⟩
          rw [hr2] at h
          cases r2 with
          | error e => cases h
          | ok rest =>
              injection h with h'
              subst h'
              rcases List.mem_append.mp hd with h1 | h2
              · exact ⟨l, List.mem_cons_self l ls, ds1, hr1, h1⟩
              · obtain ⟨line, hls, ds, hds, hdds⟩ := ih rest hr2 h2
                exact ⟨line, List.mem_cons_of_mem l hls, ds, hds, hdds⟩

/-- C7: if the inventory tool is missing or its invocation fails,
device discovery returns the empty list normally (no raise, session
continues); and every device a successful discovery returns comes from
a listing line whose transport field is exactly `"usb"`. -/
theorem detect_failure_empty_usb_only (env : Env) (n : Nat) :
    (env n = ExecResult.notFound → detect_usb_devices env n = Except.ok []) ∧
    (∀ out, env n = ExecResult.ran false out →
      detect_usb_devices env n = Except.ok []) ∧
    (∀ devs d, detect_usb_devices env n = Except.ok devs → d ∈ devs →
      ∃ out line, env n = ExecResult.ran true out ∧ line ∈ pyLines out ∧
        (pySplitWs line).getD 2 "" = "usb" ∧
        d.device = "/dev/" ++ (pySplitWs line).headD "") := by
  refine ⟨?_, ?_, ?_⟩
  · intro h
    unfold detect_usb_devices
    rw [h]
  · intro out h
    unfold detect_usb_devices
    rw [h]
  · intro devs d h hd
    obtain ⟨r, hr⟩ : ∃ r, env n = r := ⟨_, rfl⟩
    cases r with
    | notFound =>
        unfold detect_usb_devices at h
        rw [hr] at h
        injection h with h'
        subst h'
        simp at hd
    | ran b out =>
        cases b with
        | false =>
            unfold detect_usb_devices at h
            rw [hr] at h
            injection h with h'
            subst h'
            simp at hd
        | true =>
            unfold detect_usb_devices at h
            rw [hr] at h
            obtain ⟨line, hline, ds, hds, hdds⟩ :=
              parseDeviceLines_mem (pyLines out) devs d h hd
            obtain ⟨htran, hdev⟩ := parseDeviceLine_usb line ds d hds hdds
            exact ⟨out, line, hr, hline, htran, hdev⟩

/-- Witness for C7: a missing inventory tool at invocation 0 yields the
empty device list. -/
theorem detect_failure_empty_usb_only_witness :
    ((fun _ => ExecResult.notFound : Env) 0 = ExecResult.notFound) ∧
    detect_usb_devices (fun _ => ExecResult.notFound) 0 = Except.ok [] :=
  ⟨rfl, (detect_failure_empty_usb_only (fun _ => ExecResult.notFound) 0).1 rfl⟩

/-- C10 counterexample: with a listing line whose SIZE field is not
numeric, `int(...)` raises, the call does not complete, and the
previously stored (stale, nonempty) device list survives unchanged
instead of being replaced. -/
theorem detect_stale_counterexample :
    detect_usb_devices (fun _ => ExecResult.ran true "sdb zzz usb") 0 =
      Except.error PyExc.valueError ∧
    detect_update (fun _ => ExecResult.ran true "sdb zzz usb") 0
      [⟨"/dev/old", 1, "Old"⟩] = [⟨"/dev/old", 1, "Old"⟩] ∧
    ([(⟨"/dev/old", 1, "Old"⟩ : USBDevice)] : List USBDevice) ≠ [] :=
  ⟨by decide, by decide, by decide⟩

/-- C10 (amended): a discovery call that returns normally replaces the
stored list with the freshly built one — in particular the empty list
when the inventory tool is unavailable or its invocation fails — while
a call that raises (unparseable SIZE field) leaves the stored list
unchanged. -/
theorem detect_update_amended (env : Env) (n : Nat)
    (stored : List USBDevice) :
    (∀ devs, detect_usb_devices env n = Except.ok devs →
      detect_update env n stored = devs) ∧
    (env n = ExecResult.notFound → detect_update env n stored = []) ∧
    (∀ out, env n = ExecResult.ran false out →
      detect_update env n stored = []) ∧
    (∀ e, detect_usb_devices env n = Except.error e →
      detect_update env n stored = stored) := by
  refine ⟨?_, ?_, ?_, ?_⟩
  · intro devs h
    unfold detect_update
    rw [h]
  · intro h
    have hde : detect_usb_devices env n = Except.ok [] := by
      unfold detect_usb_devices
      rw [h]
    unfold detect_update
    rw [hde]
  · intro out h
    have hde : detect_usb_devices env n = Except.ok [] := by
      unfold detect_usb_devices
      rw [h]
    unfold detect_update
    rw [hde]
  · intro e h
    unfold detect_update
    rw [h]

/-- Witness for C10 (amended): a missing inventory tool empties the
stored list. -/
theorem detect_update_amended_witness :
    ((fun _ => ExecResult.notFound : Env) 0 = ExecResult.notFound) ∧
    detect_update (fun _ => ExecResult.notFound) 0 [⟨"/dev/old", 1, "Old"⟩] = [] :=
  ⟨rfl,
    (detect_update_amended (fun _ => ExecResult.notFound) 0
      [⟨"/dev/old", 1, "Old"⟩]).2.1 rfl⟩
